import Mathlib

/-!
Shallow embedding of the fact-checking core of the `seekr` repository
(src/src/models/fact_check.py, src/src/models/transcript.py,
src/src/llm/search_apis.py, src/src/engines/multi_source_verifier.py,
src/src/engines/fact_checker.py), together with theorems settling the
frozen claims about it.

Modelling conventions:
* Python floats that carry relevance/confidence scores are modelled as `Rat`;
  every score the code manipulates is a decimal literal or a clamp/comparison
  of one, so no binary-rounding behaviour is observable in the claims.
* A Python exception escaping a function is modelled with `Except PyError`;
  a function the source makes total (every exception caught) is a total
  Lean function.
* Network and language-model calls are modelled by oracle parameters: the
  outcome of the call (transport/parse failure, or the decoded payload) is an
  explicit argument.  The text of the prompt sent to the model only influences
  which answer the oracle would give, so prompt-assembly helpers
  (`_build_reconciliation_context`, `PromptTemplates`, the knowledge-base
  keyword search feeding `claim_verification`) are absorbed into the oracle
  argument and not re-modelled.
* pydantic field constraints (`ge=`, `le=`) and `field_validator`s run at
  construction time; constructors that can reject are modelled as `mk...`
  functions returning `Except PyError _`.  pydantic v2's default behaviour for
  an unexpected keyword argument is `extra="ignore"`: the argument is dropped
  silently, which matters for `Source(..., api_source=...)`.
-/

namespace Seekr

/-- A Python exception escaping a modelled operation. -/
inductive PyError where
  /-- `AttributeError`, e.g. accessing a missing enum member. -/
  | attributeError (msg : String)
  /-- pydantic `ValidationError` raised by a field constraint or validator. -/
  | validationError (msg : String)
  /-- Any other exception (API failure, JSON decode failure, ...). -/
  | exception (msg : String)
deriving Repr, DecidableEq

/-- The `str(e)` text of a modelled exception. -/
def PyError.message : PyError → String
  | .attributeError m => m
  | .validationError m => m
  | .exception m => m

/-- src/src/models/fact_check.py lines 8-17: the `ClaimType` enum. -/
inductive ClaimType where
  | statistic | date | company | technology | prediction | regulation | other
deriving Repr, DecidableEq

/-- The `ClaimType(s)` enum constructor: `some` on a member value string,
`none` where Python raises `ValueError`. -/
def ClaimType.ofString? : String → Option ClaimType
  | "statistic" => some .statistic
  | "date" => some .date
  | "company" => some .company
  | "technology" => some .technology
  | "prediction" => some .prediction
  | "regulation" => some .regulation
  | "other" => some .other
  | _ => none

/-- src/src/models/fact_check.py lines 20-27: the `VerificationStatus` enum.
Its members are exactly VERIFIED, PARTIALLY_VERIFIED, UNVERIFIED, INCORRECT
and UNABLE_TO_VERIFY; there is no member named UNVERIFIABLE. -/
inductive VerificationStatus where
  | verified | partially_verified | unverified | incorrect | unable_to_verify
deriving Repr, DecidableEq

/-- The `VerificationStatus(s)` enum constructor: `some` on a member value
string, `none` where Python raises `ValueError`. -/
def VerificationStatus.ofString? : String → Option VerificationStatus
  | "verified" => some .verified
  | "partially_verified" => some .partially_verified
  | "unverified" => some .unverified
  | "incorrect" => some .incorrect
  | "unable_to_verify" => some .unable_to_verify
  | _ => none

/-- The Python expression `VerificationStatus.UNVERIFIABLE`
(src/src/engines/multi_source_verifier.py lines 63, 178 and 193).  The enum
defined in src/src/models/fact_check.py has no such member, so evaluating the
attribute access raises `AttributeError` at runtime. -/
def unverifiableAttributeError : PyError :=
  .attributeError "type object VerificationStatus has no attribute UNVERIFIABLE"

/-- src/src/models/fact_check.py lines 30-37: `FactualClaim`. -/
structure FactualClaim where
  claim_text : String
  claim_type : ClaimType
  speaker : String
  timestamp : Option String := none
  context : Option String := none
deriving Repr, DecidableEq

/-- src/src/models/fact_check.py lines 40-46: `Source`.  Its fields are
exactly title, url, excerpt and reliability_score — it has no field for the
providing API's tag. -/
structure Source where
  title : String
  url : Option String := none
  excerpt : Option String := none
  reliability_score : Rat := 8/10
deriving Repr, DecidableEq

/-- Construction of a `Source`, enforcing the pydantic field constraint
`ge=0.0, le=1.0` on reliability_score.  Any extra keyword argument (such as
`api_source=` at src/src/engines/multi_source_verifier.py line 241) is
silently ignored by pydantic and hence absent here. -/
def mkSource (title : String) (url : Option String) (excerpt : Option String)
    (reliability_score : Rat) : Except PyError Source :=
  if 0 ≤ reliability_score ∧ reliability_score ≤ 1 then
    .ok { title := title, url := url, excerpt := excerpt,
          reliability_score := reliability_score }
  else
    .error (.validationError "reliability_score out of range")

/-- src/src/models/fact_check.py lines 49-68: `FactCheckResult`. -/
structure FactCheckResult where
  claim : FactualClaim
  verification_status : VerificationStatus
  confidence_score : Rat
  explanation : String
  sources : List Source := []
  verified_at : Option String := none
deriving Repr, DecidableEq

/-- Construction of a `FactCheckResult`: the `ge=0.0, le=1.0` constraint on
confidence_score, then the `validate_confidence` field validator (lines
59-68), which rejects VERIFIED or INCORRECT results with confidence < 0.7. -/
def mkFactCheckResult (claim : FactualClaim) (verification_status : VerificationStatus)
    (confidence_score : Rat) (explanation : String) (sources : List Source)
    (verified_at : Option String) : Except PyError FactCheckResult :=
  if ¬(0 ≤ confidence_score ∧ confidence_score ≤ 1) then
    .error (.validationError "confidence_score out of range")
  else if verification_status = .verified ∧ confidence_score < 7/10 then
    .error (.validationError "Verified claims should have confidence >= 0.7")
  else if verification_status = .incorrect ∧ confidence_score < 7/10 then
    .error (.validationError "Incorrect claims should have confidence >= 0.7")
  else
    .ok { claim := claim, verification_status := verification_status,
          confidence_score := confidence_score, explanation := explanation,
          sources := sources, verified_at := verified_at }

/-- The membership test at src/src/models/fact_check.py lines 84-86:
`fc.verification_status in [VerificationStatus.VERIFIED,
VerificationStatus.PARTIALLY_VERIFIED]`. -/
def countsAsVerified (fc : FactCheckResult) : Bool :=
  match fc.verification_status with
  | .verified | .partially_verified => true
  | _ => false

/-- src/src/models/fact_check.py lines 71-95: `EpisodeFactChecks`. -/
structure EpisodeFactChecks where
  episode_id : String
  fact_checks : List FactCheckResult
  total_claims : Nat
  verified_count : Nat
  unverified_count : Nat
deriving Repr, DecidableEq

/-- Construction of an `EpisodeFactChecks`: the `validate_fact_check_count`
field validator (lines 89-95) rejects a list of fewer than 3 results during
`__init__`; then `model_post_init` (lines 80-87) recomputes the three derived
counts from the list, overwriting whatever values were supplied for them. -/
def mkEpisodeFactChecks (episode_id : String) (fact_checks : List FactCheckResult)
    (total0 : Nat := 0) (verified0 : Nat := 0) (unverified0 : Nat := 0) :
    Except PyError EpisodeFactChecks :=
  if fact_checks.length < 3 then
    .error (.validationError
      ("Must have at least 3 fact checks, got " ++ toString fact_checks.length))
  else
    -- model_post_init ignores (overwrites) total0 / verified0 / unverified0
    .ok { episode_id := episode_id
          fact_checks := fact_checks
          total_claims := fact_checks.length
          verified_count := (fact_checks.filter countsAsVerified).length
          unverified_count :=
            fact_checks.length - (fact_checks.filter countsAsVerified).length }

/-- src/src/models/transcript.py lines 8-14: `TranscriptSegment` (the
timestamp-format and nonempty-text validators, exercised by none of the
claims, are not re-modelled). -/
structure TranscriptSegment where
  timestamp : String
  speaker : String
  /-- The source field is named `section`, a Lean keyword. -/
  sectionName : String
  text : String
deriving Repr, DecidableEq

/-- src/src/models/transcript.py lines 34-47: `PodcastEpisode` (derived
statistics fields and validators, exercised by none of the claims, are not
re-modelled). -/
structure PodcastEpisode where
  episode_id : String
  title : String
  host : String
  guests : List String := []
  transcript : List TranscriptSegment
deriving Repr, DecidableEq

/-- src/src/llm/search_apis.py lines 9-16: `SearchResult`. -/
structure SearchResult where
  title : String
  url : Option String := none
  snippet : String
  score : Rat := 1
  source_api : String
deriving Repr, DecidableEq

/-- Construction of a `SearchResult`, enforcing the pydantic constraint
`ge=0.0, le=1.0` on score. -/
def mkSearchResult (title : String) (url : Option String) (snippet : String)
    (score : Rat) (source_api : String) : Except PyError SearchResult :=
  if 0 ≤ score ∧ score ≤ 1 then
    .ok { title := title, url := url, snippet := snippet, score := score,
          source_api := source_api }
  else
    .error (.validationError "score out of range")

/-- Python's builtin `min` on two floats. -/
def pyMin (a b : Rat) : Rat := if a ≤ b then a else b

/-- Python's builtin `max` on two floats. -/
def pyMax (a b : Rat) : Rat := if a ≤ b then b else a

/-!
Evidence Source Adapters (src/src/llm/search_apis.py).

Each adapter's `search` wraps its whole network-and-parse body in
`try/except Exception`, returning `[]` from the handler, and returns `[]`
up front when its credential is absent; so each `search` is a total Lean
function.  The outcome of the provider call is an oracle argument: `failure`
covers every exception path inside the `try` (transport error, timeout,
non-2xx via `raise_for_status`, JSON decode error, missing keys in the
payload), and `ok` carries the decoded payload the parsing code reads.

A credential is `Option String` where `none` stands for a falsy key (absent
or the empty string): the clients test `if not self.api_key`.
-/

/-- Outcome of the Perplexity chat-completions call: on success, the message
content and the list of citation URLs (citations are modelled as strings;
a non-string citation would merely yield `url=None`, which no claim
exercises). -/
inductive PerplexityOutcome where
  | failure (msg : String)
  | ok (content : String) (citations : List String)
deriving Repr, DecidableEq

/-- The loop at src/src/llm/search_apis.py lines 78-88: one `SearchResult`
per citation (rank `i` counted from 0), score `1.0 - i * 0.1`, title
`"Source {i+1}"`, snippet = first 500 characters of the content.  A
`ValidationError` from the `SearchResult` constructor aborts the whole
`search`, which then returns `[]` from the `except` handler. -/
def perplexityCitationLoop (content : String) : Nat → List String →
    Except PyError (List SearchResult)
  | _, [] => .ok []
  | i, c :: cs =>
    match mkSearchResult ("Source " ++ toString (i + 1)) (some c)
        (content.take 500) (1 - i * (1/10)) "perplexity" with
    | .error e => .error e
    | .ok r =>
      match perplexityCitationLoop content (i + 1) cs with
      | .error e => .error e
      | .ok rest => .ok (r :: rest)

/-- `PerplexityClient.search` (src/src/llm/search_apis.py lines 33-105). -/
def perplexitySearch (apiKey : Option String) (query : String)
    (maxResults : Nat := 3) (o : PerplexityOutcome) : List SearchResult :=
  match apiKey with
  | none => []          -- line 44-45: no credential, no call attempted
  | some _ =>
    match o with
    | .failure _ => []  -- lines 103-105: any exception is caught, [] returned
    | .ok content citations =>
      match perplexityCitationLoop content 0 (citations.take maxResults) with
      | .error _ => []
      | .ok results =>
        -- lines 90-99: no citations but nonempty content: one result from
        -- the raw text with score 0.8
        if results.isEmpty ∧ content ≠ "" then
          match mkSearchResult "Perplexity Analysis" none (content.take 500)
              (8/10) "perplexity" with
          | .error _ => []
          | .ok r => [r]
        else results

/-- One entry of the Tavily response's `results` array. -/
structure TavilyItem where
  title : Option String := none
  url : Option String := none
  content : Option String := none
  score : Option Rat := none
deriving Repr, DecidableEq

/-- Outcome of the Tavily search call. -/
inductive TavilyOutcome where
  | failure (msg : String)
  | ok (items : List TavilyItem)
deriving Repr, DecidableEq

/-- `TavilyClient.__init__` (src/src/llm/search_apis.py lines 115-132):
`self.client` is set only when a key is present and the `tavily` package
imports; otherwise it stays `None`. -/
def tavilyClientPresent (apiKey : Option String) (installed : Bool) : Bool :=
  apiKey.isSome && installed

/-- The loop at src/src/llm/search_apis.py lines 156-166.  Note the response
items are NOT truncated client-side (no `[:max_results]` here; the limit is
only passed to the API).  A `ValidationError` (e.g. a provider score outside
[0,1]) aborts the whole `search`, which returns `[]`. -/
def tavilyItemLoop : List TavilyItem → Except PyError (List SearchResult)
  | [] => .ok []
  | it :: its =>
    match mkSearchResult (it.title.getD "Unknown") it.url (it.content.getD "")
        (it.score.getD (1/2)) "tavily" with
    | .error e => .error e
    | .ok r =>
      match tavilyItemLoop its with
      | .error e => .error e
      | .ok rest => .ok (r :: rest)

/-- `TavilyClient.search` (src/src/llm/search_apis.py lines 134-172). -/
def tavilySearch (clientPresent : Bool) (query : String) (maxResults : Nat := 3)
    (o : TavilyOutcome) : List SearchResult :=
  if clientPresent then
    match o with
    | .failure _ => []
    | .ok items =>
      match tavilyItemLoop items with
      | .error _ => []
      | .ok results => results
  else []                -- lines 145-146: no client, no call attempted

/-- One entry of a Google Fact Check claim's `claimReview` array. -/
structure GoogleReview where
  url : Option String := none
  textualRating : Option String := none
  publisherName : Option String := none
deriving Repr, DecidableEq

/-- One entry of the Google Fact Check response's `claims` array. -/
structure GoogleClaim where
  text : Option String := none
  claimReview : List GoogleReview := []
deriving Repr, DecidableEq

/-- Outcome of the Google Fact Check Tools call. -/
inductive GoogleOutcome where
  | failure (msg : String)
  | ok (claims : List GoogleClaim)
deriving Repr, DecidableEq

/-- The loop at src/src/llm/search_apis.py lines 214-228: only the FIRST
review of each returned claim is used; claims with no review are skipped;
the snippet combines the textual rating and the publisher name; the score is
a fixed 0.9. -/
def googleClaimLoop : List GoogleClaim → Except PyError (List SearchResult)
  | [] => .ok []
  | c :: cs =>
    match c.claimReview with
    | [] => googleClaimLoop cs
    | review :: _ =>
      match mkSearchResult (c.text.getD "Unknown claim") review.url
          ((review.textualRating.getD "Unknown") ++ " - " ++
            (review.publisherName.getD "Unknown publisher"))
          (9/10) "google_factcheck" with
      | .error e => .error e
      | .ok r =>
        match googleClaimLoop cs with
        | .error e => .error e
        | .ok rest => .ok (r :: rest)

/-- `GoogleFactCheckClient.search` (src/src/llm/search_apis.py lines
188-234). -/
def googleFactCheckSearch (apiKey : Option String) (query : String)
    (maxResults : Nat := 3) (o : GoogleOutcome) : List SearchResult :=
  match apiKey with
  | none => []           -- lines 199-200: no credential, no call attempted
  | some _ =>
    match o with
    | .failure _ => []
    | .ok claims =>
      match googleClaimLoop (claims.take maxResults) with
      | .error _ => []
      | .ok results => results

/-- One entry of the SerpAPI response's `organic_results` array. -/
structure SerpItem where
  title : Option String := none
  link : Option String := none
  snippet : Option String := none
deriving Repr, DecidableEq

/-- Outcome of the SerpAPI call. -/
inductive SerpOutcome where
  | failure (msg : String)
  | ok (items : List SerpItem)
deriving Repr, DecidableEq

/-- The loop at src/src/llm/search_apis.py lines 280-290: score a fixed
0.7. -/
def serpItemLoop : List SerpItem → Except PyError (List SearchResult)
  | [] => .ok []
  | it :: its =>
    match mkSearchResult (it.title.getD "Unknown") it.link
        (it.snippet.getD "") (7/10) "serpapi" with
    | .error e => .error e
    | .ok r =>
      match serpItemLoop its with
      | .error e => .error e
      | .ok rest => .ok (r :: rest)

/-- `SerpAPIClient.search` (src/src/llm/search_apis.py lines 254-296). -/
def serpApiSearch (apiKey : Option String) (query : String)
    (maxResults : Nat := 3) (o : SerpOutcome) : List SearchResult :=
  match apiKey with
  | none => []           -- lines 265-266: no credential, no call attempted
  | some _ =>
    match o with
    | .failure _ => []
    | .ok items =>
      match serpItemLoop (items.take maxResults) with
      | .error _ => []
      | .ok results => results

/-!
MultiSourceVerifier (src/src/engines/multi_source_verifier.py).
-/

/-- `MultiSourceVerifier.__init__` state (lines 20-44): the four resolved
credentials.  A `SerpAPIClient` is constructed only when a serpapi key is
supplied.  `tavilyInstalled` records whether the `tavily` package imports. -/
structure MultiSourceVerifier where
  perplexityKey : Option String := none
  tavilyKey : Option String := none
  tavilyInstalled : Bool := true
  googleKey : Option String := none
  serpapiKey : Option String := none
deriving Repr, DecidableEq

/-- The outcomes of one round of provider calls, one per adapter. -/
structure SearchOracles where
  perplexity : PerplexityOutcome
  tavily : TavilyOutcome
  google : GoogleOutcome
  serpapi : SerpOutcome
deriving Repr, DecidableEq

/-- `MultiSourceVerifier._search_all_apis` (lines 87-113): each adapter's
`search` is invoked in turn and the result lists are concatenated in a fixed
provider order; the serpapi adapter only when it was constructed. -/
def searchAllApis (v : MultiSourceVerifier) (query : String)
    (o : SearchOracles) : List SearchResult :=
  let perplexityResults := perplexitySearch v.perplexityKey query 3 o.perplexity
  let tavilyResults :=
    tavilySearch (tavilyClientPresent v.tavilyKey v.tavilyInstalled) query 3 o.tavily
  let googleResults := googleFactCheckSearch v.googleKey query 3 o.google
  let serpapiResults :=
    match v.serpapiKey with
    | none => []
    | some k => serpApiSearch (some k) query 3 o.serpapi
  perplexityResults ++ tavilyResults ++ googleResults ++ serpapiResults

/-- Wall-clock latency of `_search_all_apis` (lines 97-113), given each
provider call's latency.  The body is straight-line synchronous code: every
`search` is a blocking `httpx`/SDK call, and each call begins only after the
previous one returns (the module's `import asyncio` at line 2 is never used,
and no thread pool or task gather appears anywhere in the class).  The total
is therefore the SUM of the configured providers' latencies, not their
maximum. -/
def searchAllApisLatency (v : MultiSourceVerifier)
    (perplexityMs tavilyMs googleMs serpapiMs : Nat) : Nat :=
  perplexityMs + tavilyMs + googleMs +
    (if v.serpapiKey.isSome then serpapiMs else 0)

/-- A JSON number field as the reconciliation parser sees it: `float(x)`
raises on a non-numeric value. -/
inductive JsonNum where
  | num (q : Rat)
  | notANumber
deriving Repr, DecidableEq

/-- The fields the reconciliation code reads from the model's JSON reply
(`response_json.get(...)`, lines 174-186); `none` models an absent key. -/
structure ReconcileJson where
  verification_status : Option String := none
  confidence_score : Option JsonNum := none
  explanation : Option String := none
deriving Repr, DecidableEq

/-- Outcome of `LLMGateway.generate_json` (src/src/llm/gateway.py lines
154-206): it raises (`failure`) on an API error or a reply that is not
valid JSON, and otherwise returns the parsed object. -/
inductive LLMOutcome where
  | failure (msg : String)
  | ok (j : ReconcileJson)
deriving Repr, DecidableEq

/-- `MultiSourceVerifier._reconcile_results` (lines 115-196).

The `except Exception` handler at lines 190-196 returns the tuple
`(VerificationStatus.UNVERIFIABLE, 0.3, ...)`; evaluating that attribute
access raises `AttributeError` (the enum has no member UNVERIFIABLE), so
every path that reaches the handler raises out of the function:
* `generate_json` failing (line 168);
* an unmapped status string, including the default `"unverifiable"` used
  when the key is absent: line 176 raises `ValueError`, line 178 then raises
  `AttributeError` inside the `try`, which the handler catches and re-raises;
* `float()` failing on a non-numeric confidence (line 180).

The claim and the search results only shape the prompt (built by
`_build_reconciliation_context`), which is absorbed by the `llm` oracle. -/
def reconcileResults (claim : FactualClaim) (searchResults : List SearchResult)
    (llm : LLMOutcome) : Except PyError (VerificationStatus × Rat × String) :=
  match llm with
  | .failure _ => .error unverifiableAttributeError
  | .ok j =>
    let statusStr := j.verification_status.getD "unverifiable"
    match VerificationStatus.ofString? statusStr with
    | none => .error unverifiableAttributeError
    | some status =>
      match j.confidence_score.getD (.num (1/2)) with
      | .notANumber => .error unverifiableAttributeError
      | .num c =>
        -- line 181: confidence = max(0.0, min(1.0, confidence))
        let confidence := pyMax 0 (pyMin 1 c)
        let explanation := j.explanation.getD
          "Unable to determine verification status from available sources."
        .ok (status, confidence, explanation)

/-- `MultiSourceVerifier._convert_to_sources` (lines 223-245): each
`SearchResult` becomes a `Source` whose excerpt is the snippet truncated to
200 characters (`None` when the snippet is empty, Python truthiness) and
whose reliability score is the raw relevance score.  The constructor call at
lines 236-242 also passes `api_source=result.source_api`, but the `Source`
model has no such field and pydantic silently drops the extra argument, so
the provider tag does not survive the conversion.  There is no `try` here:
a `ValidationError` would propagate to the caller. -/
def convertToSources : List SearchResult → Except PyError (List Source)
  | [] => .ok []
  | r :: rs =>
    match mkSource r.title r.url
        (if r.snippet = "" then none else some (r.snippet.take 200)) r.score with
    | .error e => .error e
    | .ok s =>
      match convertToSources rs with
      | .error e => .error e
      | .ok rest => .ok (s :: rest)

/-- `MultiSourceVerifier.verify_claim` (lines 46-85).  When every adapter
returned no evidence, lines 60-68 build
`FactCheckResult(verification_status=VerificationStatus.UNVERIFIABLE, ...)`;
evaluating the attribute access raises `AttributeError` before the result is
constructed.  `now` models `datetime.utcnow().isoformat()`. -/
def verifyClaim (v : MultiSourceVerifier) (claim : FactualClaim)
    (o : SearchOracles) (llm : LLMOutcome) (now : String) :
    Except PyError FactCheckResult :=
  let allResults := searchAllApis v claim.claim_text o
  if allResults.isEmpty then
    .error unverifiableAttributeError
  else
    match reconcileResults claim allResults llm with
    | .error e => .error e
    | .ok (status, confidence, explanation) =>
      match convertToSources allResults with
      | .error e => .error e
      | .ok sources =>
        mkFactCheckResult claim status confidence explanation sources (some now)

/-!
FactCheckEngine (src/src/engines/fact_checker.py).
-/

/-- One entry of the `claims` array of the claim-identification reply
(lines 112-128); `none` models an absent key. -/
structure ClaimItem where
  claim_text : Option String := none
  claim_type : Option String := none
  speaker : Option String := none
  timestamp : Option String := none
  context : Option String := none
deriving Repr, DecidableEq

/-- The object the claim-identification reply decodes to (line 109 reads the
`claims` key with default `[]`). -/
structure IdentifyJson where
  claims : List ClaimItem := []
deriving Repr, DecidableEq

/-- The placeholder claim fabricated at src/src/engines/fact_checker.py
lines 133-140. -/
def placeholderClaim : FactualClaim :=
  { claim_text := "General discussion point from the episode"
    claim_type := .other
    speaker := "Multiple"
    timestamp := none
    context := none }

/-- `FactCheckEngine._identify_claims` (src/src/engines/fact_checker.py
lines 83-142).

The `generate_json` call at lines 102-106 is NOT wrapped in `try/except`, so
an API error or malformed-JSON reply raises out of this method (and
`fact_check_episode`'s docstring documents "Raises: Exception: If
fact-checking fails").  On success, each item is parsed (an unrecognized
claim-type string, lowercased first, is coerced to OTHER) and then lines
130-140 pad the list with placeholder claims until it has at least 3
entries.  The transcript only shapes the prompt, absorbed by the oracle. -/
def identifyClaims (episode : PodcastEpisode)
    (gateway : Except String IdentifyJson) : Except PyError (List FactualClaim) :=
  match gateway with
  | .error e => .error (.exception e)
  | .ok j =>
    let claims := j.claims.map (fun item =>
      let claimType :=
        (ClaimType.ofString? (item.claim_type.getD "other").toLower).getD .other
      { claim_text := item.claim_text.getD ""
        claim_type := claimType
        speaker := item.speaker.getD "Unknown"
        timestamp := item.timestamp
        context := item.context : FactualClaim })
    if claims.length < 3 then
      .ok (claims ++ List.replicate (3 - claims.length) placeholderClaim)
    else
      .ok claims

/-- One entry of the `sources` array of a claim-verification reply
(lines 177-184). -/
structure VerifySourceItem where
  title : Option String := none
  excerpt : Option String := none
  reliability_score : Option Rat := none
deriving Repr, DecidableEq

/-- The object a claim-verification reply decodes to (lines 169-190). -/
structure VerifyJson where
  verification_status : Option String := none
  confidence_score : Option JsonNum := none
  explanation : Option String := none
  sources : List VerifySourceItem := []
deriving Repr, DecidableEq

/-- The source-parsing loop at lines 176-184: `url` is never passed, so it
defaults to `None`. -/
def verifySourceLoop : List VerifySourceItem → Except PyError (List Source)
  | [] => .ok []
  | s :: ss =>
    match mkSource (s.title.getD "Unknown Source") none s.excerpt
        (s.reliability_score.getD (1/2)) with
    | .error e => .error e
    | .ok src =>
      match verifySourceLoop ss with
      | .error e => .error e
      | .ok rest => .ok (src :: rest)

/-- `FactCheckEngine._verify_claim` (src/src/engines/fact_checker.py lines
144-204).  The whole model call and parse sits in a `try` whose handler
(lines 195-204) returns an UNABLE_TO_VERIFY result with confidence 0.3 — a
construction that always validates, so this method is total.  An unmapped
status string (lines 170-173) is coerced to UNABLE_TO_VERIFY, which exists in
this enum.  The knowledge-base search only shapes the prompt, absorbed by the
oracle. -/
def engineVerifyClaim (claim : FactualClaim)
    (gateway : Except String VerifyJson) (now : String) : FactCheckResult :=
  let attempt : Except PyError FactCheckResult :=
    match gateway with
    | .error e => .error (.exception e)
    | .ok j =>
      let status :=
        (VerificationStatus.ofString?
          (j.verification_status.getD "unable_to_verify")).getD .unable_to_verify
      match j.confidence_score.getD (.num (1/2)) with
      | .notANumber => .error (.validationError "confidence_score not a number")
      | .num confidence =>
        match verifySourceLoop j.sources with
        | .error e => .error e
        | .ok sources =>
          mkFactCheckResult claim status confidence
            (j.explanation.getD "Unable to verify") sources (some now)
  match attempt with
  | .ok r => r
  | .error e =>
    { claim := claim
      verification_status := .unable_to_verify
      confidence_score := 3/10
      explanation := "Verification failed: " ++ e.message
      sources := []
      verified_at := some now }

/-- `FactCheckEngine.fact_check_episode` (src/src/engines/fact_checker.py
lines 51-81): identify claims once, verify each identified claim in order,
assemble the `EpisodeFactChecks`.  `verifyGateway i` is the model outcome
for the `i`-th claim's verification call. -/
def factCheckEpisode (episode : PodcastEpisode)
    (identifyGateway : Except String IdentifyJson)
    (verifyGateway : Nat → Except String VerifyJson) (now : String) :
    Except PyError EpisodeFactChecks :=
  match identifyClaims episode identifyGateway with
  | .error e => .error e
  | .ok claims =>
    let factChecks := claims.enum.map
      (fun p => engineVerifyClaim p.2 (verifyGateway p.1) now)
    mkEpisodeFactChecks episode.episode_id factChecks

/-!
Concrete sample values used by the theorems below.
-/

/-- A concrete factual claim (the end-to-end scenario claim of the spec's
section 8). -/
def nasaClaim : FactualClaim :=
  { claim_text := "NASA's Mars Sample Return mission launches in 2026"
    claim_type := .date
    speaker := "Host" }

/-- Provider outcomes in which only Perplexity answers (with one citation)
and every other provider call fails. -/
def outageOracles : SearchOracles :=
  { perplexity := .ok "The claim is supported." ["https://example.com/a"]
    tavily := .failure "connection refused"
    google := .failure "connection refused"
    serpapi := .failure "connection refused" }

/-- A concrete evidence item as Perplexity's adapter would produce it. -/
def perplexityResult : SearchResult :=
  { title := "Source 1"
    url := some "https://example.com/a"
    snippet := "The claim is supported."
    score := 1
    source_api := "perplexity" }

/-- An episode whose transcript contains only an opinion. -/
def opinionEpisode : PodcastEpisode :=
  { episode_id := "ep-001"
    title := "Opinions Only"
    host := "Host"
    transcript := [{ timestamp := "00:01", speaker := "Host",
                     sectionName := "Intro", text := "I just love this show." }] }

/-- A verifier configured with all four provider credentials. -/
def fullVerifier : MultiSourceVerifier :=
  { perplexityKey := some "pk", tavilyKey := some "tk", tavilyInstalled := true
    googleKey := some "gk", serpapiKey := some "sk" }

/-- Three concrete valid fact-check results (statuses: verified,
partially_verified, unable_to_verify). -/
def sampleFactChecks : List FactCheckResult :=
  [ { claim := nasaClaim, verification_status := .verified,
      confidence_score := 9/10, explanation := "Confirmed by three sources." },
    { claim := nasaClaim, verification_status := .partially_verified,
      confidence_score := 6/10, explanation := "Partially supported." },
    { claim := nasaClaim, verification_status := .unable_to_verify,
      confidence_score := 3/10, explanation := "No usable evidence." } ]

/-- The `EpisodeFactChecks` the model builds from `sampleFactChecks`. -/
def sampleEpisodeFactChecks : EpisodeFactChecks :=
  { episode_id := "ep-001"
    fact_checks := sampleFactChecks
    total_claims := 3
    verified_count := 2
    unverified_count := 1 }

/-- The `Source` a `SearchResult` is converted to by `_convert_to_sources`:
title and URL carried over, the snippet truncated to 200 characters as
excerpt (`None` when the snippet is empty), the raw relevance score as
reliability score — and nothing recording the provider. -/
def sourceOfSearchResult (r : SearchResult) : Source :=
  { title := r.title
    url := r.url
    excerpt := if r.snippet = "" then none else some (r.snippet.take 200)
    reliability_score := r.score }

/-- A tagged evidence item from the Tavily adapter. -/
def tavilyTaggedResult : SearchResult :=
  { title := "Fact check"
    url := some "https://example.com/f"
    snippet := "2026 launch confirmed"
    score := 1/2
    source_api := "tavily" }

/-- The same evidence item, tagged as coming from SerpAPI instead. -/
def serpTaggedResult : SearchResult :=
  { title := "Fact check"
    url := some "https://example.com/f"
    snippet := "2026 launch confirmed"
    score := 1/2
    source_api := "serpapi" }

/-!
Theorems settling the claims.
-/

/-- C1.  The claim says that with an empty evidence list (in particular with
every provider unconfigured) `verify_claim` returns a well-formed
unverifiable result and does not raise.  On the code, for every claim, every
set of provider outcomes and every model outcome, a verifier holding no
credentials reaches line 63's `VerificationStatus.UNVERIFIABLE` and raises
`AttributeError` instead of returning: the enum in
src/src/models/fact_check.py has no member UNVERIFIABLE. -/
theorem verifyClaim_noCredentials_attributeError :
    ∀ (installed : Bool) (o : SearchOracles) (llm : LLMOutcome)
      (claim : FactualClaim) (now : String),
      verifyClaim { tavilyInstalled := installed } claim o llm now
        = .error unverifiableAttributeError := by
  intro installed o llm claim now
  cases installed <;> rfl

/-- C2.  The claim says `verify_claim` never raises under ordinary
operational failures (provider outage, model error).  On the code, with one
provider configured and answering, three providers down and the model call
failing, `_reconcile_results`'s `except` handler evaluates
`VerificationStatus.UNVERIFIABLE` and the resulting `AttributeError`
propagates out of `verify_claim`. -/
theorem verifyClaim_modelFailure_attributeError :
    verifyClaim { perplexityKey := some "pk" } nasaClaim outageOracles
      (.failure "model unavailable") "2026-01-01T00:00:00"
      = .error unverifiableAttributeError := by
  norm_num [verifyClaim, searchAllApis, perplexitySearch, perplexityCitationLoop,
    tavilySearch, tavilyClientPresent, googleFactCheckSearch, serpApiSearch,
    mkSearchResult, reconcileResults, outageOracles, nasaClaim]

/-- C3.  The claim says `_reconcile_results` falls back to
unverifiable / 0.3 / "reconciliation failed" on any failure and never raises.
On the code, each of the three failure paths — model status string outside
the enum (including `"possibly_inaccurate"` and `"unverifiable"`, two of the
three statuses the reconciliation prompt itself requests), a `generate_json`
failure, and an arbitrary unmapped string — raises `AttributeError` out of
the operation, because the `except` handler's own fallback tuple evaluates
the missing member `VerificationStatus.UNVERIFIABLE`. -/
theorem reconcileResults_failure_attributeError :
    reconcileResults nasaClaim [perplexityResult]
        (.ok { verification_status := some "possibly_inaccurate",
               confidence_score := some (.num (8/10)),
               explanation := some "Sources conflict." })
      = .error unverifiableAttributeError
    ∧ reconcileResults nasaClaim [perplexityResult] (.failure "API error")
      = .error unverifiableAttributeError
    ∧ reconcileResults nasaClaim [perplexityResult]
        (.ok { verification_status := some "maybe",
               confidence_score := some (.num (1/2)),
               explanation := none })
      = .error unverifiableAttributeError := by
  exact ⟨rfl, rfl, rfl⟩

/-- C4 counterexample.  The claim says an episode with zero identified
claims yields a valid empty `EpisodeFactChecks` with `total_claims = 0`.  On
the code, for the concrete opinion-only episode whose identification reply
holds zero claims (and whose verification calls fail, each absorbed by
`_verify_claim`'s handler), `fact_check_episode` returns an
`EpisodeFactChecks` with `total_claims = 3`, not 0: `_identify_claims` pads
the list with three placeholder claims. -/
theorem factCheckEpisode_zeroClaims_counterexample :
    (factCheckEpisode opinionEpisode (.ok { claims := [] })
        (fun _ => .error "no key") "2026-01-01T00:00:00").map
      EpisodeFactChecks.total_claims = .ok 3
    ∧ (3 : Nat) ≠ 0 := by
  exact ⟨rfl, by decide⟩

/-- C4 amended.  For every episode whose identification reply parses to zero
claims, and for all verification outcomes, the coordinator returns an
`EpisodeFactChecks` with `total_claims = 3` (the list is padded with three
placeholder claims); and an empty `EpisodeFactChecks` cannot be constructed
at all — the `validate_fact_check_count` validator rejects a fact-check list
shorter than 3. -/
theorem factCheckEpisode_zeroClaims_padsToThree :
    (∀ (ep : PodcastEpisode) (verifyGateway : Nat → Except String VerifyJson)
       (now : String),
       (factCheckEpisode ep (.ok { claims := [] }) verifyGateway now).map
         EpisodeFactChecks.total_claims = .ok 3)
    ∧ ∀ (episodeId : String) (t0 v0 u0 : Nat),
        mkEpisodeFactChecks episodeId [] t0 v0 u0
          = .error (.validationError "Must have at least 3 fact checks, got 0") := by
  exact ⟨fun ep verifyGateway now => rfl, fun episodeId t0 v0 u0 => rfl⟩

/-- C5 counterexample.  The claim says claim identification returns an empty
list on failure, never raises, and never fabricates placeholder claims.  On
the code, for the concrete opinion-only episode: a failing model call makes
`_identify_claims` raise to its caller (there is no `try` around
`generate_json`), and a successful reply holding zero claims yields a list
of 3 fabricated placeholder claims rather than the empty list. -/
theorem identifyClaims_counterexample :
    identifyClaims opinionEpisode (.error "Failed to parse JSON response")
      = .error (.exception "Failed to parse JSON response")
    ∧ (identifyClaims opinionEpisode (.ok { claims := [] })).map List.length
      = .ok 3
    ∧ identifyClaims opinionEpisode (.ok { claims := [] })
      = .ok [placeholderClaim, placeholderClaim, placeholderClaim] := by
  exact ⟨rfl, rfl, rfl⟩

/-- C5 amended.  For every episode, `_identify_claims` propagates any
`generate_json` failure to its caller (matching `fact_check_episode`'s
documented "Raises"), and every successful identification returns at least 3
claims: when the model reply parses to fewer than 3, the list is padded with
placeholder claims. -/
theorem identifyClaims_raises_and_pads :
    ∀ (ep : PodcastEpisode),
      (∀ (e : String), identifyClaims ep (.error e) = .error (.exception e))
      ∧ ∀ (j : IdentifyJson) (l : List FactualClaim),
          identifyClaims ep (.ok j) = .ok l → 3 ≤ l.length := by
  intro ep
  refine ⟨fun e => rfl, ?_⟩
  intro j l h
  simp only [identifyClaims] at h
  split at h
  · cases h
    simp only [List.length_append, List.length_replicate, List.length_map]
    omega
  · cases h
    simp only [List.length_map] at *
    omega

/-- C5 witness: the amended theorem applied to the concrete opinion-only
episode, a failing gateway and a zero-claim reply. -/
theorem identifyClaims_raises_and_pads_witness :
    identifyClaims opinionEpisode (.error "boom") = .error (.exception "boom")
    ∧ 3 ≤ [placeholderClaim, placeholderClaim, placeholderClaim].length :=
  ⟨(identifyClaims_raises_and_pads opinionEpisode).1 "boom",
   (identifyClaims_raises_and_pads opinionEpisode).2 { claims := [] }
     [placeholderClaim, placeholderClaim, placeholderClaim] rfl⟩

/-- C6.  For every successfully constructed `EpisodeFactChecks` — whatever
values were supplied for the count fields — the derived counts are the ones
recomputed by `model_post_init` from the fact-check list: `total_claims` is
the list's length, `verified_count` counts the results with status verified
or partially_verified, and `verified_count + unverified_count =
total_claims`. -/
theorem mkEpisodeFactChecks_counts :
    ∀ (episodeId : String) (fcs : List FactCheckResult) (t0 v0 u0 : Nat)
      (e : EpisodeFactChecks),
      mkEpisodeFactChecks episodeId fcs t0 v0 u0 = .ok e →
        e.total_claims = fcs.length
        ∧ e.verified_count = (fcs.filter countsAsVerified).length
        ∧ e.verified_count + e.unverified_count = e.total_claims := by
  intro episodeId fcs t0 v0 u0 e h
  simp only [mkEpisodeFactChecks] at h
  split at h
  · cases h
  · cases h
    refine ⟨rfl, rfl, ?_⟩
    have hle : (fcs.filter countsAsVerified).length ≤ fcs.length :=
      List.length_filter_le countsAsVerified fcs
    simp only
    omega

/-- C6 witness: the theorem applied to a concrete 3-element list with
statuses verified, partially_verified and unable_to_verify, supplied counts
all 0; the recomputed counts are 3, 2 and 1. -/
theorem mkEpisodeFactChecks_counts_witness :
    sampleEpisodeFactChecks.total_claims = sampleFactChecks.length
    ∧ sampleEpisodeFactChecks.verified_count
        = (sampleFactChecks.filter countsAsVerified).length
    ∧ sampleEpisodeFactChecks.verified_count
        + sampleEpisodeFactChecks.unverified_count
        = sampleEpisodeFactChecks.total_claims :=
  mkEpisodeFactChecks_counts "ep-001" sampleFactChecks 0 0 0
    sampleEpisodeFactChecks rfl

/-- C7.  For every query and maximum result count: an adapter whose
credential is falsy returns `[]` whatever the provider outcome would have
been (the oracle argument is universally quantified, so the result does not
depend on it — no call is consulted); and with a credential present, every
failing provider call (transport error, rate limit, non-2xx, malformed
payload — all reaching the `except` handler) yields `[]` rather than an
exception, as does a payload whose parsed item violates the `SearchResult`
score constraint (a `ValidationError` caught by the same handler). -/
theorem adapterSearch_failOpen :
    ∀ (q : String) (n : Nat),
      (∀ o, perplexitySearch none q n o = [])
      ∧ (∀ installed o, tavilySearch (tavilyClientPresent none installed) q n o = [])
      ∧ (∀ o, googleFactCheckSearch none q n o = [])
      ∧ (∀ o, serpApiSearch none q n o = [])
      ∧ (∀ k e, perplexitySearch (some k) q n (.failure e) = [])
      ∧ (∀ k installed e,
          tavilySearch (tavilyClientPresent (some k) installed) q n (.failure e) = [])
      ∧ (∀ k e, googleFactCheckSearch (some k) q n (.failure e) = [])
      ∧ (∀ k e, serpApiSearch (some k) q n (.failure e) = [])
      ∧ (∀ k, tavilySearch (tavilyClientPresent (some k) true) q n
          (.ok [{ title := some "T", url := none, content := some "c",
                  score := some 2 }]) = []) := by
  intro q n
  refine ⟨fun o => rfl, ?_, fun o => rfl, fun o => rfl, fun k e => rfl,
    ?_, fun k e => rfl, fun k e => rfl, ?_⟩
  · intro installed o
    cases installed <;> rfl
  · intro k installed e
    cases installed <;> rfl
  · intro k
    norm_num [tavilySearch, tavilyClientPresent, tavilyItemLoop, mkSearchResult]

/-- C8.  The claim says the provider search calls of one evidence-gathering
step run concurrently, bounding its latency by the slowest provider.  On the
code, `_search_all_apis` is straight-line synchronous code over blocking
clients (its `import asyncio` is never used, and its docstring's "in
parallel" notwithstanding), so its latency is the SUM of the configured
providers' latencies: with four providers of 100ms each it is 400ms, not the
100ms the claim's bound allows. -/
theorem searchAllApisLatency_sequential :
    (∀ (perplexityMs tavilyMs googleMs serpapiMs : Nat),
      searchAllApisLatency fullVerifier perplexityMs tavilyMs googleMs serpapiMs
        = perplexityMs + tavilyMs + googleMs + serpapiMs)
    ∧ searchAllApisLatency fullVerifier 100 100 100 100 = 400
    ∧ 100 < searchAllApisLatency fullVerifier 100 100 100 100 := by
  exact ⟨fun a b c d => rfl, rfl, by decide⟩

/-- C9 counterexample.  The claim says each evidence item's provider tag is
retained on the resulting `Source`.  On the code, two evidence items that
differ only in their provider tag (`"tavily"` vs `"serpapi"`) convert to
identical `Source` values: the `Source` model has no provider field, and the
`api_source=` keyword passed at line 241 is silently dropped by pydantic, so
the tag cannot be recovered from the result. -/
theorem convertToSources_dropsProviderTag :
    convertToSources [tavilyTaggedResult] = convertToSources [serpTaggedResult]
    ∧ tavilyTaggedResult.source_api ≠ serpTaggedResult.source_api := by
  constructor
  · norm_num [convertToSources, mkSource, tavilyTaggedResult, serpTaggedResult]
  · decide

/-- C9 amended.  Every gathered evidence item maps to a `Source` carrying the
item's title and URL, the snippet truncated to 200 characters as excerpt
(`None` when the snippet is empty), and the provider's raw relevance score
re-used verbatim as reliability score; the provider tag is NOT retained — the
`Source` model has no field for it and the extra keyword is ignored. -/
theorem convertToSources_mapsFields :
    ∀ (rs : List SearchResult),
      (∀ r ∈ rs, 0 ≤ r.score ∧ r.score ≤ 1) →
      convertToSources rs = .ok (rs.map sourceOfSearchResult) := by
  intro rs h
  induction rs with
  | nil => rfl
  | cons r rest ih =>
    have hr : 0 ≤ r.score ∧ r.score ≤ 1 := h r (List.mem_cons_self r rest)
    have hrest := ih (fun x hx => h x (List.mem_cons_of_mem r hx))
    simp only [convertToSources, mkSource, if_pos hr, hrest, List.map_cons,
      sourceOfSearchResult]

/-- C9 witness: the amended theorem applied to the singleton list holding the
concrete Perplexity evidence item. -/
theorem convertToSources_mapsFields_witness :
    convertToSources [perplexityResult]
      = .ok [sourceOfSearchResult perplexityResult] :=
  convertToSources_mapsFields [perplexityResult]
    (by intro r hr; simp only [List.mem_singleton] at hr; subst hr
        constructor <;> norm_num [perplexityResult])

/-- C10.  For every reconciliation whose model call succeeds with a status
string inside the enum and a numeric confidence, the returned confidence is
`max(0.0, min(1.0, c))` — clamped into [0.0, 1.0] before being stored in the
verdict tuple, whatever value `c` the model stated. -/
theorem reconcileResults_clampsConfidence :
    ∀ (claim : FactualClaim) (rs : List SearchResult) (statusStr : String)
      (st : VerificationStatus) (c : Rat) (expl : String),
      VerificationStatus.ofString? statusStr = some st →
        reconcileResults claim rs
            (.ok { verification_status := some statusStr,
                   confidence_score := some (.num c),
                   explanation := some expl })
          = .ok (st, pyMax 0 (pyMin 1 c), expl)
        ∧ 0 ≤ pyMax 0 (pyMin 1 c)
        ∧ pyMax 0 (pyMin 1 c) ≤ 1 := by
  intro claim rs statusStr st c expl h
  refine ⟨?_, ?_, ?_⟩
  · simp only [reconcileResults, Option.getD, h]
  · unfold pyMax pyMin
    split_ifs <;> linarith
  · unfold pyMax pyMin
    split_ifs <;> linarith

/-- C10 witness: the theorem applied at the spec's two test values — a model
confidence of 1.7 is stored as 1.0 and a model confidence of -0.2 as 0.0. -/
theorem reconcileResults_clampsConfidence_witness :
    reconcileResults nasaClaim [perplexityResult]
        (.ok { verification_status := some "verified",
               confidence_score := some (.num (17/10)),
               explanation := some "Strong consensus." })
      = .ok (.verified, pyMax 0 (pyMin 1 (17/10)), "Strong consensus.")
    ∧ pyMax 0 (pyMin 1 ((17 : Rat)/10)) = 1
    ∧ reconcileResults nasaClaim [perplexityResult]
        (.ok { verification_status := some "unverified",
               confidence_score := some (.num (-(2/10))),
               explanation := some "Contradicted." })
      = .ok (.unverified, pyMax 0 (pyMin 1 (-(2/10))), "Contradicted.")
    ∧ pyMax 0 (pyMin 1 (-((2 : Rat)/10))) = 0 :=
  ⟨(reconcileResults_clampsConfidence nasaClaim [perplexityResult] "verified"
      .verified (17/10) "Strong consensus." rfl).1,
   by norm_num [pyMax, pyMin],
   (reconcileResults_clampsConfidence nasaClaim [perplexityResult] "unverified"
      .unverified (-(2/10)) "Contradicted." rfl).1,
   by norm_num [pyMax, pyMin]⟩

end Seekr
